import Mathlib

/-!
Verification development for the lv8 Lua/V8 object bridge.

The definitions below are a shallow embedding of the bridge core found in
the repository sources (the main translation unit, referred to by its
function names such as convert_lua2js, convert_js2lua, persistent_add,
lua_obj_gc, js_weak_object, lv8_wrap_js2lua, lv8_js2lua_call, and the
older revision src/lv8.cpp).  Lua values, V8 heap objects, the shared
reference table UV_REFTAB and the bridge wrapper records (lv8_object /
lv8_context) are modelled explicitly; the Lua stack discipline is
abstracted into value-returning functions, and V8 handle scopes are
abstracted away while context Enter/Exit pairs are tracked by ghost
counters on the state.
-/

namespace LV8

/-- Lua values as seen by the bridge.  A table stands for any plain
compound host value (table or function); udata is a full userdata carrying
an lv8_object and the bridge object metatable; lightud is a light userdata
pointer to a wrapper, as pushed by lua_pushlightuserdata. -/
inductive LuaValue where
  | nil
  | boolean (b : Bool)
  | number (q : Int)
  | str (s : String)
  | table (id : Nat)
  | udata (w : Nat)
  | lightud (w : Nat)
deriving DecidableEq, Repr

/-- V8 values as seen by the bridge.  The empty constructor models an
empty Handle; object is a reference into the modelled V8 heap. -/
inductive JSValue where
  | empty
  | undefined
  | null
  | boolean (b : Bool)
  | number (q : Int)
  | str (s : String)
  | object (id : Nat)
deriving DecidableEq, Repr

/-- The type tag of an lv8_object (enum LV8_OBJ_LUA, LV8_OBJ_JS,
LV8_OBJ_CTX, LV8_OBJ_SB in lv8.hpp). -/
inductive ObjType where
  | lua
  | js
  | ctx
  | sb
deriving DecidableEq, Repr

/-- An lv8_object / lv8_context record (lv8.hpp).  The Persistent handles
are modelled as optional references (none = Reset), with separate flags
recording whether SetWeak has armed a weak callback on them.  jscollected
and resurrected are the lv8_context state bits. -/
structure LV8Object where
  type : ObjType
  object : Option Nat
  objectWeak : Bool
  context : Option Nat
  contextWeak : Bool
  jscollected : Bool
  resurrected : Bool
deriving DecidableEq, Repr

/-- A V8 heap object as the bridge observes it: the aligned internal
field pointing at a wrapper, the hidden lv8::identity tag, whether the
object is an instance of the bridge PROXY template, whether it is the
global prototype object of a context, and the Error-related properties
read and written by the exception path. -/
structure JSObject where
  internalField : Option Nat
  hiddenIdentity : Option Nat
  isProxy : Bool
  isContextGlobal : Bool
  message : Option String
  stack : Option String
  traceback : Option String
deriving DecidableEq, Repr

/-- Association list lookup keyed by decidable equality. -/
def lookupA {α β : Type} [DecidableEq α] : List (α × β) → α → Option β
  | [], _ => none
  | (k, v) :: rest, a => if a = k then some v else lookupA rest a

/-- Remove a key from an association list. -/
def eraseA {α β : Type} [DecidableEq α] : List (α × β) → α → List (α × β)
  | [], _ => []
  | p :: rest, k => if p.1 = k then eraseA rest k else p :: eraseA rest k

/-- Set a key in an association list, replacing any previous binding. -/
def setA {α β : Type} [DecidableEq α] (l : List (α × β)) (k : α) (v : β) : List (α × β) :=
  (k, v) :: eraseA l k

/-- The bridge state: live wrapper records, the modelled V8 heap, the
shared reference table UV_REFTAB (a Lua table holding both full Lua
values and light userdata as keys and values), fresh-id counters for the
two heaps, and ghost counters tracking context Enter/Exit pairing. -/
structure BridgeState where
  wrappers : List (Nat × LV8Object)
  jsheap : List (Nat × JSObject)
  reftab : List (LuaValue × LuaValue)
  nextW : Nat
  nextJ : Nat
  scopeDepth : Nat
  scopeEnters : Nat
  scopeExits : Nat
deriving DecidableEq, Repr

/-- Ghost bookkeeping for a context Enter call. -/
def enterScope (s : BridgeState) : BridgeState :=
  { s with scopeDepth := s.scopeDepth + 1, scopeEnters := s.scopeEnters + 1 }

/-- Ghost bookkeeping for a context Exit call. -/
def exitScope (s : BridgeState) : BridgeState :=
  { s with scopeDepth := s.scopeDepth - 1, scopeExits := s.scopeExits + 1 }

/-- lua_touserdata: yields the carried pointer for full and light
userdata, none otherwise. -/
def lua_touserdata : LuaValue → Option Nat
  | .udata w => some w
  | .lightud w => some w
  | _ => none

/-- Raw read of the reference table (lua_rawget on UV_REFTAB): absent
keys read as nil. -/
def rtGet (rt : List (LuaValue × LuaValue)) (k : LuaValue) : LuaValue :=
  (lookupA rt k).getD LuaValue.nil

/-- Raw write of the reference table (lua_rawset on UV_REFTAB): writing
nil removes the binding. -/
def rtSet (rt : List (LuaValue × LuaValue)) (k v : LuaValue) : List (LuaValue × LuaValue) :=
  if v = LuaValue.nil then eraseA rt k else setA rt k v

/-- persistent_lookup_lua: raw-read the reference table at a Lua value
and interpret the result as a wrapper pointer. -/
def persistent_lookup_lua (s : BridgeState) (v : LuaValue) : Option Nat :=
  lua_touserdata (rtGet s.reftab v)

/-- persistent_lookup_js: raw-read the reference table at the light
userdata key of a wrapper; the caller inspects the pushed value. -/
def persistent_lookup_js (s : BridgeState) (w : Nat) : LuaValue :=
  rtGet s.reftab (.lightud w)

/-- persistent_add: asserts that no mapping exists for the Lua key, then
installs both directions, reftab at the Lua value mapping to the wrapper
light userdata and reftab at the light userdata mapping back to the Lua
value.  An assertion failure is modelled as none. -/
def persistent_add (s : BridgeState) (v : LuaValue) (w : Nat) : Option BridgeState :=
  if persistent_lookup_lua s v ≠ none then none
  else some { s with
    reftab := rtSet (rtSet s.reftab v (.lightud w)) (.lightud w) v }

/-- persistent_del: expects the value found under the wrapper key on the
stack (asserted non-nil) and clears both directions of the mapping. -/
def persistent_del (s : BridgeState) (w : Nat) : Option BridgeState :=
  let top := rtGet s.reftab (.lightud w)
  if top = LuaValue.nil then none
  else some { s with
    reftab := rtSet (rtSet s.reftab top LuaValue.nil) (.lightud w) LuaValue.nil }

/-- js_weak_context: the weak callback armed by lua_obj_gc on a context
whose Lua side died.  It resets both Persistent handles of the
lv8_context found in the internal field of the global prototype object
and marks jscollected. -/
def js_weak_context (s : BridgeState) (ctxGlobal : Nat) : Option BridgeState :=
  match (lookupA s.jsheap ctxGlobal).bind (fun o => o.internalField) with
  | none => none
  | some c =>
    match lookupA s.wrappers c with
    | none => none
    | some wr =>
      let wr' : LV8Object :=
        { wr with context := none, contextWeak := false, object := none,
                  objectWeak := false, jscollected := true }
      some { s with wrappers := setA s.wrappers c wr' }

/-- js_weak_object: the weak callback fired when the last V8 reference to
a proxied Lua object dies.  It looks up the Lua side in the reference
table (asserted present), removes both directions, resets the Persistent
anchor, and frees the wrapper when it is a proxy for a Lua object. -/
def js_weak_object (s : BridgeState) (j : Nat) : Option BridgeState :=
  match (lookupA s.jsheap j).bind (fun o => o.internalField) with
  | none => none
  | some v =>
    if persistent_lookup_js s v = LuaValue.nil then none
    else
      match persistent_del s v with
      | none => none
      | some s1 =>
        match lookupA s1.wrappers v with
        | none => none
        | some wr =>
          if wr.type = ObjType.lua then
            some { s1 with wrappers := eraseA s1.wrappers v }
          else
            some { s1 with
              wrappers := setA s1.wrappers v { wr with object := none, objectWeak := false } }

/-- lua_obj_gc: the __gc metamethod of bridge userdata.  For a context or
sandbox not yet collected in V8 and not already resurrected it restarts
the finalizer, arms js_weak_context on the context handle, re-anchors the
userdata in the reference table (value true) and marks resurrected,
freeing nothing.  Otherwise it clears the hidden identity tag for a
cached JS object and resets the Persistent anchor. -/
def lua_obj_gc (s : BridgeState) (w : Nat) : Option BridgeState :=
  match lookupA s.wrappers w with
  | none => none
  | some o =>
    if o.type = ObjType.sb ∨ o.type = ObjType.ctx then
      if ¬o.jscollected ∧ ¬o.resurrected then
        some { s with
          wrappers := setA s.wrappers w { o with contextWeak := true, resurrected := true },
          reftab := rtSet s.reftab (.udata w) (.boolean true) }
      else
        some { s with wrappers := setA s.wrappers w { o with object := none } }
    else
      if o.type ≠ ObjType.js then none
      else
        match o.object with
        | none => none
        | some j =>
          match lookupA s.jsheap j with
          | none => none
          | some jo =>
            some { s with
              jsheap := setA s.jsheap j { jo with hiddenIdentity := none },
              wrappers := setA s.wrappers w { o with object := none } }

/-- lv8_unwrap_lua: a Lua value is a bridge wrapper exactly when it is a
full userdata carrying the bridge object metatable; in the model every
udata value is such a wrapper. -/
def lv8_unwrap_lua : LuaValue → Option Nat
  | .udata w => some w
  | _ => none

/-- lv8_is_js_context: whether a V8 object is the global prototype object
of a context (compared by identity in the source). -/
def lv8_is_js_context (s : BridgeState) (j : Nat) : Bool :=
  match lookupA s.jsheap j with
  | some o => o.isContextGlobal
  | none => false

/-- lv8_unwrap_js: yields the wrapper in the internal field when the
object is an instance of the PROXY template, or, when the context flag is
set, also when it is a context global. -/
def lv8_unwrap_js (s : BridgeState) (j : Nat) (context : Bool) : Option Nat :=
  match lookupA s.jsheap j with
  | none => none
  | some o =>
    if ¬o.isProxy ∧ (¬context ∨ ¬lv8_is_js_context s j) then none
    else o.internalField

/-- The JS side of a wrapper as produced by dereferencing its Persistent
anchor; a reset anchor dereferences to an empty handle. -/
def wrapperObject (s : BridgeState) (w : Nat) : JSValue :=
  match (lookupA s.wrappers w).bind (fun o => o.object) with
  | some j => .object j
  | none => .empty

/-- convert_lua2js: converts a Lua value to its V8 counterpart.
Primitives convert by value and nil becomes undefined.  A bridge wrapper
short-circuits to its stored anchor object.  Otherwise the reference
table is consulted, and on a miss a fresh heap lv8_object of type
LV8_OBJ_LUA is minted: a new PROXY instance is created, anchored in the
wrapper, both reference-table directions are installed (persistent_add),
the instance internal field is pointed at the wrapper and the anchor is
made weak with js_weak_object. -/
def convert_lua2js (s : BridgeState) (v : LuaValue) : JSValue × BridgeState :=
  match v with
  | .boolean b => (.boolean b, s)
  | .nil => (.undefined, s)
  | .number q => (.number q, s)
  | .str t => (.str t, s)
  | _ =>
    match lv8_unwrap_lua v with
    | some w => (wrapperObject s w, s)
    | none =>
      match lua_touserdata (rtGet s.reftab v) with
      | some w => (wrapperObject s w, s)
      | none =>
        let w := s.nextW
        let j := s.nextJ
        let wr : LV8Object :=
          { type := ObjType.lua, object := some j, objectWeak := true,
            context := none, contextWeak := false,
            jscollected := false, resurrected := false }
        let jo : JSObject :=
          { internalField := some w, hiddenIdentity := none,
            isProxy := true, isContextGlobal := false,
            message := none, stack := none, traceback := none }
        (.object j,
          { s with
            wrappers := setA s.wrappers w wr,
            jsheap := setA s.jsheap j jo,
            reftab := rtSet (rtSet s.reftab v (.lightud w)) (.lightud w) v,
            nextW := w + 1, nextJ := j + 1 })

/-- lv8_wrap_js2lua: imports a V8 object into Lua.  When the hidden
lv8::identity tag is present the cached userdata is pushed; otherwise a
fresh userdata wrapper of type LV8_OBJ_JS is allocated, the tag is
injected, the object is anchored strongly in the wrapper and the bridge
object metatable is attached.  There is no reference-table lookup on the
untagged path. -/
def lv8_wrap_js2lua (s : BridgeState) (j : Nat) : LuaValue × BridgeState :=
  match lookupA s.jsheap j with
  | none => (.nil, s)
  | some o =>
    match o.hiddenIdentity with
    | some w => (.udata w, s)
    | none =>
      let w := s.nextW
      let wr : LV8Object :=
        { type := ObjType.js, object := some j, objectWeak := false,
          context := none, contextWeak := false,
          jscollected := false, resurrected := false }
      (.udata w,
        { s with
          wrappers := setA s.wrappers w wr,
          jsheap := setA s.jsheap j { o with hiddenIdentity := some w },
          nextW := w + 1 })

/-- The shared tail of convert_js2lua for context and sandbox wrappers:
the userdata has been pushed; the jscollected assertion is checked; a
resurrected wrapper is caught mid-gc (ClearWeak on the context handle,
removal of the reference-table anchor keyed by the userdata, flag
cleared); with sb_extract set a sandbox yields its linked host table
instead of the userdata. -/
def resurrectUndo (s : BridgeState) (c : Nat) (wr : LV8Object) : BridgeState :=
  { s with
    wrappers := setA s.wrappers c { wr with contextWeak := false, resurrected := false },
    reftab := rtSet s.reftab (.udata c) LuaValue.nil }

/-- The sb_extract ending of convert_js2lua: a sandbox userdata is popped
and replaced by the host table linked under the wrapper light userdata in
the reference table (asserted non-nil); anything else stays the pushed
userdata. -/
def ctxFinish (s : BridgeState) (c : Nat) (ty : ObjType) (sb_extract : Bool) :
    Option (LuaValue × BridgeState) :=
  if sb_extract ∧ ty = ObjType.sb then
    if rtGet s.reftab (.lightud c) = LuaValue.nil then none
    else some (rtGet s.reftab (.lightud c), s)
  else some (.udata c, s)

def convert_js2lua_ctxTail (s : BridgeState) (c : Nat) (wr : LV8Object)
    (sb_extract : Bool) : Option (LuaValue × BridgeState) :=
  if wr.jscollected then none
  else if wr.resurrected then ctxFinish (resurrectUndo s c wr) c wr.type sb_extract
  else ctxFinish s c wr.type sb_extract

/-- convert_js2lua: converts a V8 value to its Lua counterpart.  Empty,
undefined and null collapse to nil; primitives convert by value.  A PROXY
instance for a Lua object returns the native Lua value found in the
reference table; a sandbox global or a context global goes through the
context tail (resurrection undo); any other object is imported through
lv8_wrap_js2lua.  Assertion failures are modelled as none. -/
def convert_js2lua (s : BridgeState) (v : JSValue) (sb_extract : Bool) :
    Option (LuaValue × BridgeState) :=
  match v with
  | .empty => some (.nil, s)
  | .undefined => some (.nil, s)
  | .null => some (.nil, s)
  | .boolean b => some (.boolean b, s)
  | .number q => some (.number q, s)
  | .str t => some (.str t, s)
  | .object jid =>
    match lv8_unwrap_js s jid false with
    | some c =>
      match lookupA s.wrappers c with
      | none => none
      | some wr =>
        if wr.type = ObjType.lua then
          some (persistent_lookup_js s c, s)
        else if wr.type = ObjType.sb then
          convert_js2lua_ctxTail s c wr sb_extract
        else none
    | none =>
      if lv8_is_js_context s jid = false then
        some (lv8_wrap_js2lua s jid)
      else
        match (lookupA s.jsheap jid).bind (fun o => o.internalField) with
        | none => none
        | some c =>
          match lookupA s.wrappers c with
          | none => none
          | some wr => convert_js2lua_ctxTail s c wr sb_extract

/-- A fresh V8 Error object built by THROW with the given message. -/
def mkJsError (msg : String) : JSObject :=
  { internalField := none, hiddenIdentity := none, isProxy := false,
    isContextGlobal := false, message := some msg, stack := none, traceback := none }

/-- The exception helper: runs the prepared protected Lua call; on
LUA_OK it yields the results, otherwise it throws a V8 Error built from
the Lua error message (THROW of lua_tostring) and pops the message.  The
first component is the pending V8 exception, if any. -/
def exceptionFn (s : BridgeState) (pres : Except String (List LuaValue)) :
    Option Nat × List LuaValue × BridgeState :=
  match pres with
  | .ok rets => (none, rets, s)
  | .error msg =>
    let e := s.nextJ
    (some e, [], { s with jsheap := setA s.jsheap e (mkJsError msg), nextJ := e + 1 })

/-- luaL_traceback applied to a message: yields a Lua string beginning
with the message followed by the captured call stack. -/
def luaL_traceback (msg : String) : String :=
  msg ++ String.mk [Char.ofNat 10] ++ "stack traceback:"

/-- do_exc: when the TryCatch holds a caught V8 exception, builds a Lua
traceback from the stack property of the exception object, stores it back
on the object under the traceback property (converted through
convert_lua2js), converts the exception object itself to Lua and reports
true; with nothing caught reports false (none here). -/
def do_exc (s : BridgeState) (exc : Option Nat) : Option (LuaValue × BridgeState) :=
  match exc with
  | none => none
  | some e =>
    match lookupA s.jsheap e with
    | none => none
    | some eo =>
      let tb := luaL_traceback (eo.stack.getD "undefined")
      let tbjs := (convert_lua2js s (.str tb)).1
      let eo' := { eo with traceback := match tbjs with | .str t => some t | _ => eo.traceback }
      convert_js2lua { s with jsheap := setA s.jsheap e eo' } (.object e) false

/-- Converts a list of V8 call arguments to Lua, threading the state. -/
def convertArgs_js2lua (s : BridgeState) : List JSValue → Option (List LuaValue × BridgeState)
  | [] => some ([], s)
  | v :: rest =>
    match convert_js2lua s v false with
    | none => none
    | some (lv, s1) =>
      match convertArgs_js2lua s1 rest with
      | none => none
      | some (lvs, s2) => some (lv :: lvs, s2)

/-- Converts a list of Lua results to V8, threading the state. -/
def convertResults_lua2js (s : BridgeState) : List LuaValue → List JSValue × BridgeState
  | [] => ([], s)
  | v :: rest =>
    let (jv, s1) := convert_lua2js s v
    let (jvs, s2) := convertResults_lua2js s1 rest
    (jv :: jvs, s2)

/-- What guest code receives from a call into the bridge: an Array
packing values, one bare value, or the Boolean false return that
accompanies a pending translated exception. -/
inductive GuestRet where
  | arrayOf (elems : List JSValue)
  | valueOf (v : JSValue)
  | exceptionFalse (excObj : Nat)
deriving DecidableEq, Repr

/-- lv8_js2lua_call: a call from guest code into a host function.  The
actual Lua callee is found through the reference table from the internal
field of the holder (asserted present).  Arguments are converted one by
one, the protected call runs through the exception helper (host errors
become a pending V8 Error and a Boolean false return), and on success
all nres results are packed into one new Array of length nres which is
set as the return value. -/
def lv8_js2lua_call (s : BridgeState) (selfJ : Nat)
    (hostFn : LuaValue → List LuaValue → Except String (List LuaValue))
    (args : List JSValue) : Option (GuestRet × BridgeState) :=
  match (lookupA s.jsheap selfJ).bind (fun o => o.internalField) with
  | none => none
  | some w =>
    let fnVal := persistent_lookup_js s w
    if fnVal = LuaValue.nil then none
    else
      match convertArgs_js2lua s args with
      | none => none
      | some (largs, s1) =>
        match exceptionFn s1 (hostFn fnVal largs) with
        | (some e, _, s2) => some (GuestRet.exceptionFalse e, s2)
        | (none, rets, s2) =>
          let (elems, s3) := convertResults_lua2js s2 rets
          some (GuestRet.arrayOf elems, s3)

/-- Restates the specification sentence on return packing: multiple host
return values are packed into a guest array, a single value returns as
itself, and zero values return the guest absent value. -/
def spec_pack_host_returns (elems : List JSValue) : GuestRet :=
  match elems with
  | [] => GuestRet.valueOf JSValue.undefined
  | [v] => GuestRet.valueOf v
  | vs => GuestRet.arrayOf vs

/-- Outcome of invoking a V8 function: a result value or a thrown
exception object caught by the enclosing TryCatch. -/
inductive JSCallResult where
  | ok (v : JSValue)
  | exc (e : Nat)
deriving DecidableEq, Repr

/-- The receiver of a host-to-guest call: the context global for a nil
second stack slot, otherwise the converted Lua value. -/
def lua2js_receiver (s : BridgeState) (ctxGlobal : Nat) (recv : LuaValue) :
    JSValue × BridgeState :=
  if recv = LuaValue.nil then (JSValue.object ctxGlobal, s) else convert_lua2js s recv

/-- lua_obj_lua2js_call: a call from host code into a guest function.
The creation context of the callee is entered (CB_LUA_COMMON) and exited
exactly once on both branches.  The receiver defaults to the context
global for a nil second argument, arguments are converted, the call runs
under a TryCatch; a caught exception goes through do_exc and is raised
with lua_error after the context is exited (the error branch), otherwise
the result converts back to Lua.  The ctxGlobal argument stands for the
global of the creation context of the callee. -/
def lua_obj_lua2js_call (s : BridgeState) (p : Nat) (ctxGlobal : Nat)
    (callee : JSValue → List JSValue → JSCallResult)
    (recv : LuaValue) (args : List LuaValue) :
    Option (Except (LuaValue × BridgeState) (LuaValue × BridgeState)) :=
  match (lookupA s.wrappers p).bind (fun o => o.object) with
  | none => none
  | some _oj =>
    match callee (lua2js_receiver (enterScope s) ctxGlobal recv).1
        (convertResults_lua2js (lua2js_receiver (enterScope s) ctxGlobal recv).2 args).1 with
    | .exc e =>
      match do_exc
          (convertResults_lua2js (lua2js_receiver (enterScope s) ctxGlobal recv).2 args).2
          (some e) with
      | none => none
      | some (lv, s3) => some (.error (lv, exitScope s3))
    | .ok res =>
      match convert_js2lua
          (convertResults_lua2js (lua2js_receiver (enterScope s) ctxGlobal recv).2 args).2
          res false with
      | none => none
      | some (lv, s3) => some (.ok (lv, exitScope s3))

/-- lv8_getprop_cb: the named-property read trap of a sandbox.  It
prepares a protected gettable, converts the holder with sb_extract so the
linked host table is loaded, converts the property name, and runs the
protected call; a host error is translated by the exception helper into a
pending guest Error and no return value is set, otherwise the fetched
value converts to V8 and is returned. -/
def lv8_getprop_cb (s : BridgeState) (holder : Nat) (prop : JSValue)
    (hostGet : LuaValue → LuaValue → Except String LuaValue) :
    Option (Option Nat × Option JSValue × BridgeState) :=
  match convert_js2lua s (.object holder) true with
  | none => none
  | some (hval, s1) =>
    match convert_js2lua s1 prop false with
    | none => none
    | some (pval, s2) =>
      match exceptionFn s2 ((hostGet hval pval).map (fun v => [v])) with
      | (some e, _, s3) => some (some e, none, s3)
      | (none, rets, s3) =>
        let (jv, s4) := convert_lua2js s3 (rets.headD LuaValue.nil)
        some (none, some jv, s4)

/-- js_vm_eval: evaluates a script, optionally inside an explicit
context.  When the third argument is an object unwrapping (with the
context flag) to a context or sandbox wrapper, that context is entered;
compilation and the optional run follow (a script exception does not
unwind here, the run simply yields an empty handle); finally the context
is exited exactly when it was entered. -/
def js_vm_eval (s : BridgeState) (ctxArg : JSValue) (dryrun : Bool) :
    Option BridgeState :=
  match ctxArg with
  | .object jid =>
    match lv8_unwrap_js s jid true with
    | some p =>
      match lookupA s.wrappers p with
      | some wr =>
        if wr.type = ObjType.ctx ∨ wr.type = ObjType.sb then
          match wr.context with
          | some _ => some (exitScope (enterScope s))
          | none => none
        else some s
      | none => none
    | none => some s
  | _ => some s

/-- The guest-object import section of convert_js2lua in the older
revision src/lv8.cpp (lines 266 to 294): with LV8_CACHE_PERSISTENT the
hidden identity tag is consulted and injected exactly as in
lv8_wrap_js2lua; without it a fresh userdata wrapper is allocated and
anchored on every import, with no lookup of any kind. -/
def lv8cpp_import_js (cache : Bool) (s : BridgeState) (j : Nat) :
    Option (LuaValue × BridgeState) :=
  match lookupA s.jsheap j with
  | none => none
  | some o =>
    let freshW := s.nextW
    let wr : LV8Object :=
      { type := ObjType.js, object := some j, objectWeak := false,
        context := none, contextWeak := false,
        jscollected := false, resurrected := false }
    if cache then
      match o.hiddenIdentity with
      | some w => some (.udata w, s)
      | none =>
        some (.udata freshW,
          { s with
            wrappers := setA s.wrappers freshW wr,
            jsheap := setA s.jsheap j { o with hiddenIdentity := some freshW },
            nextW := freshW + 1 })
    else
      some (.udata freshW,
        { s with wrappers := setA s.wrappers freshW wr, nextW := freshW + 1 })

/-! Association list and reference table lemmas. -/

theorem lookupA_eraseA {α β : Type} [DecidableEq α] (l : List (α × β)) (k a : α) :
    lookupA (eraseA l k) a = if a = k then none else lookupA l a := by
  induction l with
  | nil => simp [lookupA, eraseA]
  | cons p rest ih =>
    obtain ⟨pk, pv⟩ := p
    simp only [eraseA]
    by_cases h1 : pk = k
    · subst h1
      rw [if_pos rfl, ih]
      by_cases h2 : a = pk
      · simp [lookupA, h2]
      · simp [lookupA, h2]
    · rw [if_neg h1]
      by_cases h2 : a = pk
      · subst h2
        have hk : ¬ a = k := fun hh => h1 (by rw [hh])
        simp [lookupA, hk]
      · simp only [lookupA, if_neg h2]
        exact ih

theorem lookupA_setA {α β : Type} [DecidableEq α] (l : List (α × β)) (k a : α) (v : β) :
    lookupA (setA l k v) a = if a = k then some v else lookupA l a := by
  by_cases h : a = k <;> simp [setA, lookupA, h, lookupA_eraseA]

theorem rtGet_rtSet (rt : List (LuaValue × LuaValue)) (k v a : LuaValue) :
    rtGet (rtSet rt k v) a = if a = k then v else rtGet rt a := by
  by_cases hv : v = LuaValue.nil
  · subst hv
    by_cases h : a = k <;> simp [rtGet, rtSet, lookupA_eraseA, h]
  · by_cases h : a = k <;> simp [rtGet, rtSet, lookupA_setA, h, hv]

/-! Scope ghost-field preservation: none of the codec or wrapper
operations touch the context Enter/Exit bookkeeping. -/

/-- Two states agree on the scope ghost fields. -/
def scopesEq (a b : BridgeState) : Prop :=
  a.scopeDepth = b.scopeDepth ∧ a.scopeEnters = b.scopeEnters ∧ a.scopeExits = b.scopeExits

theorem scopesEq_refl (a : BridgeState) : scopesEq a a := ⟨rfl, rfl, rfl⟩

theorem scopesEq_trans {a b c : BridgeState} (h1 : scopesEq a b) (h2 : scopesEq b c) :
    scopesEq a c :=
  ⟨h1.1.trans h2.1, h1.2.1.trans h2.2.1, h1.2.2.trans h2.2.2⟩

theorem convert_lua2js_scopes (s : BridgeState) (v : LuaValue) :
    scopesEq (convert_lua2js s v).2 s := by
  unfold convert_lua2js
  repeat' split
  all_goals exact ⟨rfl, rfl, rfl⟩

theorem lv8_wrap_js2lua_scopes (s : BridgeState) (j : Nat) :
    scopesEq (lv8_wrap_js2lua s j).2 s := by
  unfold lv8_wrap_js2lua
  repeat' split
  all_goals exact ⟨rfl, rfl, rfl⟩

theorem ctxFinish_scopes (s : BridgeState) (c : Nat) (ty : ObjType) (e : Bool)
    (r : LuaValue × BridgeState) (h : ctxFinish s c ty e = some r) :
    scopesEq r.2 s := by
  unfold ctxFinish at h
  split at h
  · split at h
    · exact absurd h (by simp)
    · cases h
      exact ⟨rfl, rfl, rfl⟩
  · cases h
    exact ⟨rfl, rfl, rfl⟩

theorem ctxTail_scopes (s : BridgeState) (c : Nat) (wr : LV8Object) (e : Bool)
    (r : LuaValue × BridgeState) (h : convert_js2lua_ctxTail s c wr e = some r) :
    scopesEq r.2 s := by
  unfold convert_js2lua_ctxTail at h
  split at h
  · exact absurd h (by simp)
  · split at h
    · exact scopesEq_trans (ctxFinish_scopes _ _ _ _ _ h) ⟨rfl, rfl, rfl⟩
    · exact ctxFinish_scopes _ _ _ _ _ h

theorem convert_js2lua_scopes (s : BridgeState) (v : JSValue) (e : Bool)
    (r : LuaValue × BridgeState) (h : convert_js2lua s v e = some r) :
    scopesEq r.2 s := by
  unfold convert_js2lua at h
  cases v <;> simp at h <;> try { cases h; exact ⟨rfl, rfl, rfl⟩ }
  case object jid =>
    split at h
    · split at h
      · exact absurd h (by simp)
      · split at h
        · cases h
          exact ⟨rfl, rfl, rfl⟩
        · split at h
          · exact ctxTail_scopes _ _ _ _ _ h
          · exact absurd h (by simp)
    · split at h
      · cases h
        exact lv8_wrap_js2lua_scopes s jid
      · split at h
        · exact absurd h (by simp)
        · split at h
          · exact absurd h (by simp)
          · exact ctxTail_scopes _ _ _ _ _ h

theorem do_exc_scopes (s : BridgeState) (exc : Option Nat)
    (r : LuaValue × BridgeState) (h : do_exc s exc = some r) :
    scopesEq r.2 s := by
  unfold do_exc at h
  split at h
  · exact absurd h (by simp)
  · split at h
    · exact absurd h (by simp)
    · exact scopesEq_trans (convert_js2lua_scopes _ _ _ _ h) ⟨rfl, rfl, rfl⟩

theorem convertResults_scopes (s : BridgeState) (l : List LuaValue) :
    scopesEq (convertResults_lua2js s l).2 s := by
  induction l generalizing s with
  | nil => exact ⟨rfl, rfl, rfl⟩
  | cons v rest ih =>
    unfold convertResults_lua2js
    exact scopesEq_trans (ih (convert_lua2js s v).2) (convert_lua2js_scopes s v)

theorem convertArgs_scopes (s : BridgeState) (l : List JSValue)
    (r : List LuaValue × BridgeState) (h : convertArgs_js2lua s l = some r) :
    scopesEq r.2 s := by
  induction l generalizing s r with
  | nil =>
    unfold convertArgs_js2lua at h
    cases h
    exact ⟨rfl, rfl, rfl⟩
  | cons v rest ih =>
    unfold convertArgs_js2lua at h
    split at h
    · exact absurd h (by simp)
    · rename_i lv s1 h1
      split at h
      · exact absurd h (by simp)
      · rename_i lvs s2 h2
        cases h
        exact scopesEq_trans (ih s1 (lvs, s2) h2) (convert_js2lua_scopes _ _ _ _ h1)

/-! Supporting definitions for the theorems. -/

/-- The underlying V8 object anchored by a bridge userdata, if any. -/
def proxyTarget (s : BridgeState) (v : LuaValue) : Option Nat :=
  match v with
  | .udata w => (lookupA s.wrappers w).bind (fun o => o.object)
  | _ => none

/-- The message property of a V8 heap object. -/
def jsMessage (s : BridgeState) (j : Nat) : Option String :=
  (lookupA s.jsheap j).bind (fun o => o.message)

/-- The bridge state carried by either outcome of a host-to-guest call. -/
def stateOfOutcome : Except (LuaValue × BridgeState) (LuaValue × BridgeState) → BridgeState
  | .ok (_, t) => t
  | .error (_, t) => t

/-- Number of live wrappers anchoring a given V8 object. -/
def countAnchors (s : BridgeState) (j : Nat) : Nat :=
  (s.wrappers.filter (fun p => p.2.object = some j)).length

/-! Claim theorems. -/

/-- C7: the Value Codec converts booleans, numbers and strings by value
in both directions; the guest values undefined, null and the empty handle
all convert to the single host absent value nil, without faulting; host
nil converts to guest undefined. -/
theorem C7_value_codec_primitives (s : BridgeState) (b : Bool) (q : Int) (t : String) :
    convert_js2lua s JSValue.empty false = some (LuaValue.nil, s) ∧
    convert_js2lua s JSValue.undefined false = some (LuaValue.nil, s) ∧
    convert_js2lua s JSValue.null false = some (LuaValue.nil, s) ∧
    convert_js2lua s (JSValue.boolean b) false = some (LuaValue.boolean b, s) ∧
    convert_js2lua s (JSValue.number q) false = some (LuaValue.number q, s) ∧
    convert_js2lua s (JSValue.str t) false = some (LuaValue.str t, s) ∧
    convert_lua2js s (LuaValue.boolean b) = (JSValue.boolean b, s) ∧
    convert_lua2js s LuaValue.nil = (JSValue.undefined, s) ∧
    convert_lua2js s (LuaValue.number q) = (JSValue.number q, s) ∧
    convert_lua2js s (LuaValue.str t) = (JSValue.str t, s) :=
  ⟨rfl, rfl, rfl, rfl, rfl, rfl, rfl, rfl, rfl, rfl⟩

/-- C8: persistent_add populates the forward mapping from the Lua key and
the backward mapping from the wrapper light userdata as one logical
operation (both present afterwards); it requires that no mapping for the
key exists yet, and a duplicate insert is a fatal assertion failure;
persistent_del removes both directions together. -/
theorem C8_reftab_insert_balanced (s : BridgeState) (v : LuaValue) (w w0 : Nat)
    (hnil : v ≠ LuaValue.nil) (hlight : v ≠ LuaValue.lightud w) :
    (persistent_lookup_lua s v = none →
      ∃ s1, persistent_add s v w = some s1 ∧
        rtGet s1.reftab v = LuaValue.lightud w ∧
        rtGet s1.reftab (LuaValue.lightud w) = v) ∧
    (persistent_lookup_lua s v = some w0 → persistent_add s v w = none) ∧
    (rtGet s.reftab (LuaValue.lightud w) = v →
      ∃ s2, persistent_del s w = some s2 ∧
        rtGet s2.reftab (LuaValue.lightud w) = LuaValue.nil ∧
        rtGet s2.reftab v = LuaValue.nil) := by
  refine ⟨fun hnone => ?_, fun hdup => ?_, fun hv => ?_⟩
  · unfold persistent_add
    rw [if_neg (by simp [hnone])]
    refine ⟨_, rfl, ?_, ?_⟩
    · simp [rtGet_rtSet, hlight]
    · simp [rtGet_rtSet]
  · unfold persistent_add
    rw [if_pos (by simp [hdup])]
  · simp only [persistent_del, hv]
    rw [if_neg hnil]
    refine ⟨_, rfl, ?_, ?_⟩
    · simp [rtGet_rtSet]
    · simp [rtGet_rtSet, hlight, Ne.symm hlight]

/-- Witness for C8 at a concrete state: inserting a table key into an
empty table, rejecting the duplicate, and deleting both directions. -/
theorem C8_reftab_witness :
    let s0 : BridgeState :=
      { wrappers := [], jsheap := [], reftab := [], nextW := 0, nextJ := 0,
        scopeDepth := 0, scopeEnters := 0, scopeExits := 0 }
    (LuaValue.table 5 ≠ LuaValue.nil) ∧
    (LuaValue.table 5 ≠ LuaValue.lightud 3) ∧
    ((persistent_lookup_lua s0 (LuaValue.table 5) = none →
      ∃ s1, persistent_add s0 (LuaValue.table 5) 3 = some s1 ∧
        rtGet s1.reftab (LuaValue.table 5) = LuaValue.lightud 3 ∧
        rtGet s1.reftab (LuaValue.lightud 3) = LuaValue.table 5) ∧
    (persistent_lookup_lua s0 (LuaValue.table 5) = some 4 →
      persistent_add s0 (LuaValue.table 5) 3 = none) ∧
    (rtGet s0.reftab (LuaValue.lightud 3) = LuaValue.table 5 →
      ∃ s2, persistent_del s0 3 = some s2 ∧
        rtGet s2.reftab (LuaValue.lightud 3) = LuaValue.nil ∧
        rtGet s2.reftab (LuaValue.table 5) = LuaValue.nil)) :=
  ⟨by decide, by decide,
    C8_reftab_insert_balanced _ (LuaValue.table 5) 3 4 (by decide) (by decide)⟩

/-- C1: converting a host object that is not yet bridged mints one proxy;
converting that proxy back yields the original host object by reference
identity, and converting the host object again returns the very same
proxy with the state unchanged, as long as the reference table entry
exists. -/
theorem C1_identity_preservation (s : BridgeState) (n : Nat)
    (hfresh : persistent_lookup_lua s (LuaValue.table n) = none) :
    ∃ g s1,
      convert_lua2js s (LuaValue.table n) = (g, s1) ∧
      convert_js2lua s1 g false = some (LuaValue.table n, s1) ∧
      convert_lua2js s1 (LuaValue.table n) = (g, s1) := by
  simp only [persistent_lookup_lua] at hfresh
  obtain ⟨g, s1, hconv⟩ : ∃ g s1, convert_lua2js s (LuaValue.table n) = (g, s1) :=
    ⟨_, _, rfl⟩
  refine ⟨g, s1, hconv, ?_, ?_⟩
  · simp only [convert_lua2js, lv8_unwrap_lua, hfresh] at hconv
    rw [Prod.mk.injEq] at hconv
    obtain ⟨hg, hs1⟩ := hconv
    subst hg
    subst hs1
    simp [convert_js2lua, lv8_unwrap_js, lv8_is_js_context, lookupA_setA,
      persistent_lookup_js, rtGet_rtSet]
  · simp only [convert_lua2js, lv8_unwrap_lua, hfresh] at hconv
    rw [Prod.mk.injEq] at hconv
    obtain ⟨hg, hs1⟩ := hconv
    subst hg
    subst hs1
    simp [convert_lua2js, lv8_unwrap_lua, lookupA_setA, rtGet_rtSet,
      lua_touserdata, wrapperObject]

/-- Witness for C1 at the empty state and host table 0. -/
theorem C1_identity_witness :
    let s0 : BridgeState :=
      { wrappers := [], jsheap := [], reftab := [], nextW := 0, nextJ := 0,
        scopeDepth := 0, scopeEnters := 0, scopeExits := 0 }
    persistent_lookup_lua s0 (LuaValue.table 0) = none ∧
    (∃ g s1,
      convert_lua2js s0 (LuaValue.table 0) = (g, s1) ∧
      convert_js2lua s1 g false = some (LuaValue.table 0, s1) ∧
      convert_lua2js s1 (LuaValue.table 0) = (g, s1)) :=
  ⟨by decide, C1_identity_preservation _ 0 (by decide)⟩

/-- C10: a bridge userdata wrapping a guest object converts back to the
original underlying V8 object itself through the stored anchor handle,
never to a proxy of the proxy; and a guest-side PROXY instance for a host
object converts back to the native host object found in the reference
table, so wrapper chains cannot form in either direction. -/
theorem C10_no_proxy_chains (s : BridgeState) (w j : Nat) (wr : LV8Object)
    (s2 : BridgeState) (p c : Nat) (po : JSObject) (cw : LV8Object) (k : LuaValue)
    (hw : lookupA s.wrappers w = some wr) (hobj : wr.object = some j)
    (hp : lookupA s2.jsheap p = some po) (hproxy : po.isProxy = true)
    (hf : po.internalField = some c)
    (hc : lookupA s2.wrappers c = some cw) (htype : cw.type = ObjType.lua)
    (hk : rtGet s2.reftab (LuaValue.lightud c) = k) :
    convert_lua2js s (LuaValue.udata w) = (JSValue.object j, s) ∧
    convert_js2lua s2 (JSValue.object p) false = some (k, s2) := by
  constructor
  · simp [convert_lua2js, lv8_unwrap_lua, wrapperObject, hw, hobj]
  · simp [convert_js2lua, lv8_unwrap_js, hp, hproxy, hf, hc, htype,
      persistent_lookup_js, hk]

/-- Witness for C10 at concrete states: wrapper 0 anchors guest object 7,
and proxy 3 carries wrapper 1 linked to host table 4. -/
theorem C10_no_proxy_chains_witness :
    let sA : BridgeState :=
      { wrappers := [(0, { type := ObjType.js, object := some 7, objectWeak := false,
                           context := none, contextWeak := false,
                           jscollected := false, resurrected := false })],
        jsheap := [], reftab := [], nextW := 1, nextJ := 8,
        scopeDepth := 0, scopeEnters := 0, scopeExits := 0 }
    let sB : BridgeState :=
      { wrappers := [(1, { type := ObjType.lua, object := some 3, objectWeak := true,
                           context := none, contextWeak := false,
                           jscollected := false, resurrected := false })],
        jsheap := [(3, { internalField := some 1, hiddenIdentity := none,
                         isProxy := true, isContextGlobal := false,
                         message := none, stack := none, traceback := none })],
        reftab := [(LuaValue.lightud 1, LuaValue.table 4),
                   (LuaValue.table 4, LuaValue.lightud 1)],
        nextW := 2, nextJ := 4,
        scopeDepth := 0, scopeEnters := 0, scopeExits := 0 }
    convert_lua2js sA (LuaValue.udata 0) = (JSValue.object 7, sA) ∧
    convert_js2lua sB (JSValue.object 3) false = some (LuaValue.table 4, sB) :=
  C10_no_proxy_chains _ 0 7
    ⟨ObjType.js, some 7, false, none, false, false, false⟩ _ 3 1
    ⟨some 1, none, true, false, none, none, none⟩
    ⟨ObjType.lua, some 3, true, none, false, false, false⟩ (LuaValue.table 4)
    (by decide) (by decide) (by decide) (by decide) (by decide)
    (by decide) (by decide) (by decide)

/-- C3: when the guest-side weak callback fires for a never-re-observed
wrapper, both reference table directions are removed, the anchor is
released and the wrapper record is freed, so no lookup by either key
succeeds afterwards; for a context the weak context callback resets both
handles and marks the wrapper collected. -/
theorem C3_terminal_collection
    (s : BridgeState) (j w : Nat) (o : JSObject) (wr : LV8Object) (v : LuaValue)
    (hj : lookupA s.jsheap j = some o) (hf : o.internalField = some w)
    (hwr : lookupA s.wrappers w = some wr) (htype : wr.type = ObjType.lua)
    (hv : rtGet s.reftab (LuaValue.lightud w) = v) (hvnil : v ≠ LuaValue.nil)
    (s2 : BridgeState) (g c : Nat) (go : JSObject) (cw : LV8Object)
    (hg : lookupA s2.jsheap g = some go) (hgf : go.internalField = some c)
    (hcw : lookupA s2.wrappers c = some cw) :
    (∃ s1, js_weak_object s j = some s1 ∧
      rtGet s1.reftab (LuaValue.lightud w) = LuaValue.nil ∧
      rtGet s1.reftab v = LuaValue.nil ∧
      persistent_lookup_lua s1 v = none ∧
      lookupA s1.wrappers w = none) ∧
    (∃ s3, js_weak_context s2 g = some s3 ∧
      ∃ cw3, lookupA s3.wrappers c = some cw3 ∧ cw3.jscollected = true ∧
        cw3.context = none ∧ cw3.object = none) := by
  constructor
  · have hnn : ¬ persistent_lookup_js s w = LuaValue.nil := by
      simp only [persistent_lookup_js, hv]
      exact hvnil
    have hdel : persistent_del s w =
        some { s with reftab := rtSet (rtSet s.reftab v LuaValue.nil) (LuaValue.lightud w) LuaValue.nil } := by
      simp only [persistent_del, hv]
      rw [if_neg hvnil]
    refine ⟨{ s with reftab := rtSet (rtSet s.reftab v LuaValue.nil) (LuaValue.lightud w) LuaValue.nil, wrappers := eraseA s.wrappers w }, ?_, ?_, ?_, ?_, ?_⟩
    · simp only [js_weak_object, hj, Option.some_bind, hf, if_neg hnn, hdel, hwr, htype,
        if_pos rfl, if_true]
    · simp [rtGet_rtSet]
    · by_cases hvw : v = LuaValue.lightud w <;> simp [rtGet_rtSet, hvw]
    · by_cases hvw : v = LuaValue.lightud w <;>
        simp [persistent_lookup_lua, rtGet_rtSet, hvw, lua_touserdata]
    · simp [lookupA_eraseA]
  · refine ⟨{ s2 with wrappers := setA s2.wrappers c { cw with context := none, contextWeak := false, object := none, objectWeak := false, jscollected := true } }, ?_, ?_⟩
    · simp only [js_weak_context, hg, Option.some_bind, hgf, hcw]
    · exact ⟨{ cw with context := none, contextWeak := false, object := none, objectWeak := false, jscollected := true }, by simp [lookupA_setA], rfl, rfl, rfl⟩

/-- Witness for C3 at concrete states: proxy object 5 for host table 9
through wrapper 2, and context global 6 for context wrapper 3. -/
theorem C3_terminal_collection_witness :
    let sA : BridgeState :=
      { wrappers := [(2, { type := ObjType.lua, object := some 5, objectWeak := true,
                           context := none, contextWeak := false,
                           jscollected := false, resurrected := false })],
        jsheap := [(5, { internalField := some 2, hiddenIdentity := none,
                         isProxy := true, isContextGlobal := false,
                         message := none, stack := none, traceback := none })],
        reftab := [(LuaValue.lightud 2, LuaValue.table 9),
                   (LuaValue.table 9, LuaValue.lightud 2)],
        nextW := 3, nextJ := 6,
        scopeDepth := 0, scopeEnters := 0, scopeExits := 0 }
    let sB : BridgeState :=
      { wrappers := [(3, { type := ObjType.ctx, object := some 6, objectWeak := true,
                           context := some 1, contextWeak := true,
                           jscollected := false, resurrected := true })],
        jsheap := [(6, { internalField := some 3, hiddenIdentity := none,
                         isProxy := false, isContextGlobal := true,
                         message := none, stack := none, traceback := none })],
        reftab := [], nextW := 4, nextJ := 7,
        scopeDepth := 0, scopeEnters := 0, scopeExits := 0 }
    (∃ s1, js_weak_object sA 5 = some s1 ∧
      rtGet s1.reftab (LuaValue.lightud 2) = LuaValue.nil ∧
      rtGet s1.reftab (LuaValue.table 9) = LuaValue.nil ∧
      persistent_lookup_lua s1 (LuaValue.table 9) = none ∧
      lookupA s1.wrappers 2 = none) ∧
    (∃ s3, js_weak_context sB 6 = some s3 ∧
      ∃ cw3, lookupA s3.wrappers 3 = some cw3 ∧ cw3.jscollected = true ∧
        cw3.context = none ∧ cw3.object = none) :=
  C3_terminal_collection _ 5 2
    ⟨some 2, none, true, false, none, none, none⟩
    ⟨ObjType.lua, some 5, true, none, false, false, false⟩ (LuaValue.table 9)
    (by decide) (by decide) (by decide) (by decide) (by decide) (by decide)
    _ 6 3
    ⟨some 3, none, false, true, none, none, none⟩
    ⟨ObjType.ctx, some 6, true, some 1, true, false, true⟩
    (by decide) (by decide) (by decide)

/-- C2: a context wrapper whose Lua side dropped it (lua_obj_gc) enters
the pending state: weak context callback armed, reference table anchor
installed, resurrected set, nothing freed.  Handing the context back
across the boundary before the weak callback fires (convert_js2lua)
clears the weak registration and the resurrected flag, removes only the
temporary anchor so the reference table is restored to its original
contents, and keeps the anchors intact; a subsequent Lua-side drop takes
the arming branch again rather than doing nothing. -/
theorem C2_resurrection (s : BridgeState) (w j : Nat)
    (wobj : Option Nat) (wweak : Bool) (wctx : Option Nat) (cweak : Bool)
    (hid : Option Nat) (m st tb : Option String)
    (hw : lookupA s.wrappers w =
      some ⟨ObjType.ctx, wobj, wweak, wctx, cweak, false, false⟩)
    (hj : lookupA s.jsheap j = some ⟨some w, hid, false, true, m, st, tb⟩)
    (hanchor : rtGet s.reftab (LuaValue.udata w) = LuaValue.nil) :
    ∃ s1 ret s2 s3,
      lua_obj_gc s w = some s1 ∧
      rtGet s1.reftab (LuaValue.udata w) = LuaValue.boolean true ∧
      (∃ wr1, lookupA s1.wrappers w = some wr1 ∧ wr1.resurrected = true ∧
        wr1.contextWeak = true ∧ wr1.object = wobj) ∧
      convert_js2lua s1 (JSValue.object j) false = some (ret, s2) ∧
      (∃ wr2, lookupA s2.wrappers w = some wr2 ∧ wr2.resurrected = false ∧
        wr2.contextWeak = false ∧ wr2.object = wobj ∧ wr2.context = wctx) ∧
      (∀ k, rtGet s2.reftab k = rtGet s.reftab k) ∧
      lua_obj_gc s2 w = some s3 ∧
      (∃ wr3, lookupA s3.wrappers w = some wr3 ∧ wr3.resurrected = true ∧
        wr3.contextWeak = true) ∧
      rtGet s3.reftab (LuaValue.udata w) = LuaValue.boolean true := by
  have h1 : lua_obj_gc s w = some { s with wrappers := setA s.wrappers w ⟨ObjType.ctx, wobj, wweak, wctx, true, false, true⟩, reftab := rtSet s.reftab (LuaValue.udata w) (LuaValue.boolean true) } := by
    simp [lua_obj_gc, hw]
  have h2 : convert_js2lua { s with wrappers := setA s.wrappers w ⟨ObjType.ctx, wobj, wweak, wctx, true, false, true⟩, reftab := rtSet s.reftab (LuaValue.udata w) (LuaValue.boolean true) } (JSValue.object j) false = some (LuaValue.udata w, { s with wrappers := setA (setA s.wrappers w ⟨ObjType.ctx, wobj, wweak, wctx, true, false, true⟩) w ⟨ObjType.ctx, wobj, wweak, wctx, false, false, false⟩, reftab := rtSet (rtSet s.reftab (LuaValue.udata w) (LuaValue.boolean true)) (LuaValue.udata w) LuaValue.nil }) := by
    simp [convert_js2lua, lv8_unwrap_js, lv8_is_js_context, hj, lookupA_setA,
      convert_js2lua_ctxTail, resurrectUndo, ctxFinish]
  have h3 : lua_obj_gc { s with wrappers := setA (setA s.wrappers w ⟨ObjType.ctx, wobj, wweak, wctx, true, false, true⟩) w ⟨ObjType.ctx, wobj, wweak, wctx, false, false, false⟩, reftab := rtSet (rtSet s.reftab (LuaValue.udata w) (LuaValue.boolean true)) (LuaValue.udata w) LuaValue.nil } w = some { s with wrappers := setA (setA (setA s.wrappers w ⟨ObjType.ctx, wobj, wweak, wctx, true, false, true⟩) w ⟨ObjType.ctx, wobj, wweak, wctx, false, false, false⟩) w ⟨ObjType.ctx, wobj, wweak, wctx, true, false, true⟩, reftab := rtSet (rtSet (rtSet s.reftab (LuaValue.udata w) (LuaValue.boolean true)) (LuaValue.udata w) LuaValue.nil) (LuaValue.udata w) (LuaValue.boolean true) } := by
    simp [lua_obj_gc, lookupA_setA]
  refine ⟨_, _, _, _, h1, ?_, ?_, h2, ?_, ?_, h3, ?_, ?_⟩
  · simp [rtGet_rtSet]
  · exact ⟨⟨ObjType.ctx, wobj, wweak, wctx, true, false, true⟩,
      by simp [lookupA_setA], rfl, rfl, rfl⟩
  · exact ⟨⟨ObjType.ctx, wobj, wweak, wctx, false, false, false⟩,
      by simp [lookupA_setA], rfl, rfl, rfl, rfl⟩
  · intro k
    by_cases hk : k = LuaValue.udata w <;> simp [rtGet_rtSet, hk, hanchor]
  · exact ⟨⟨ObjType.ctx, wobj, wweak, wctx, true, false, true⟩,
      by simp [lookupA_setA], rfl, rfl⟩
  · simp [rtGet_rtSet]

/-- Witness for C2: context wrapper 0 whose global prototype is object 4,
run through drop, re-observation and a second drop. -/
theorem C2_resurrection_witness :
    let s0 : BridgeState :=
      { wrappers := [(0, { type := ObjType.ctx, object := some 4, objectWeak := true,
                           context := some 9, contextWeak := false,
                           jscollected := false, resurrected := false })],
        jsheap := [(4, { internalField := some 0, hiddenIdentity := none,
                         isProxy := false, isContextGlobal := true,
                         message := none, stack := none, traceback := none })],
        reftab := [], nextW := 1, nextJ := 5,
        scopeDepth := 0, scopeEnters := 0, scopeExits := 0 }
    rtGet s0.reftab (LuaValue.udata 0) = LuaValue.nil ∧
    (∃ s1 ret s2 s3,
      lua_obj_gc s0 0 = some s1 ∧
      rtGet s1.reftab (LuaValue.udata 0) = LuaValue.boolean true ∧
      (∃ wr1, lookupA s1.wrappers 0 = some wr1 ∧ wr1.resurrected = true ∧
        wr1.contextWeak = true ∧ wr1.object = some 4) ∧
      convert_js2lua s1 (JSValue.object 4) false = some (ret, s2) ∧
      (∃ wr2, lookupA s2.wrappers 0 = some wr2 ∧ wr2.resurrected = false ∧
        wr2.contextWeak = false ∧ wr2.object = some 4 ∧ wr2.context = some 9) ∧
      (∀ k, rtGet s2.reftab k = rtGet s0.reftab k) ∧
      lua_obj_gc s2 0 = some s3 ∧
      (∃ wr3, lookupA s3.wrappers 0 = some wr3 ∧ wr3.resurrected = true ∧
        wr3.contextWeak = true) ∧
      rtGet s3.reftab (LuaValue.udata 0) = LuaValue.boolean true) :=
  ⟨by decide,
    C2_resurrection _ 0 4 (some 4) true (some 9) false none none none none
      (by decide) (by decide) (by decide)⟩

theorem convertResults_length (s : BridgeState) (l : List LuaValue) :
    (convertResults_lua2js s l).1.length = l.length := by
  induction l generalizing s with
  | nil => rfl
  | cons v rest ih => simp [convertResults_lua2js, ih]

/-- C4 (amended): a call from guest code into a host function always
packs the host results into one guest Array of the converted values, for
every result count n, including n equal to one (a one-element array, not
the bare value) and n equal to zero (an empty array, not undefined). -/
theorem C4_return_packing_always_array (s : BridgeState) (selfJ w : Nat)
    (hid : Option Nat) (pr ig : Bool) (m st tb : Option String)
    (hostFn : LuaValue → List LuaValue → Except String (List LuaValue))
    (args : List JSValue) (largs : List LuaValue) (s1 : BridgeState)
    (rets : List LuaValue)
    (hself : lookupA s.jsheap selfJ = some ⟨some w, hid, pr, ig, m, st, tb⟩)
    (hfn : persistent_lookup_js s w ≠ LuaValue.nil)
    (hargs : convertArgs_js2lua s args = some (largs, s1))
    (hok : hostFn (persistent_lookup_js s w) largs = Except.ok rets) :
    lv8_js2lua_call s selfJ hostFn args =
      some (GuestRet.arrayOf (convertResults_lua2js s1 rets).1,
            (convertResults_lua2js s1 rets).2) ∧
    (convertResults_lua2js s1 rets).1.length = rets.length := by
  refine ⟨?_, convertResults_length s1 rets⟩
  simp [lv8_js2lua_call, hself, hfn, hargs, hok, exceptionFn]

/-- State for the C4 counterexample and witness: guest function object 0
carries wrapper 0, linked to a Lua callee under the reference table. -/
def C4state : BridgeState :=
  { wrappers := [(0, { type := ObjType.lua, object := some 0, objectWeak := true,
                       context := none, contextWeak := false,
                       jscollected := false, resurrected := false })],
    jsheap := [(0, { internalField := some 0, hiddenIdentity := none,
                     isProxy := true, isContextGlobal := false,
                     message := none, stack := none, traceback := none })],
    reftab := [(LuaValue.lightud 0, LuaValue.table 7),
               (LuaValue.table 7, LuaValue.lightud 0)],
    nextW := 1, nextJ := 1, scopeDepth := 0, scopeEnters := 0, scopeExits := 0 }

/-- A host callee returning exactly one value. -/
def C4fnOne : LuaValue → List LuaValue → Except String (List LuaValue) :=
  fun _ _ => Except.ok [LuaValue.boolean true]

/-- A host callee returning no values. -/
def C4fnZero : LuaValue → List LuaValue → Except String (List LuaValue) :=
  fun _ _ => Except.ok []

/-- C4 counterexample: with one host return value the guest receives the
one-element array, not the bare value the specification prescribes; with
zero host return values the guest receives an empty array, not
undefined. -/
theorem C4_single_value_packed_counterexample :
    lv8_js2lua_call C4state 0 C4fnOne [] =
      some (GuestRet.arrayOf [JSValue.boolean true], C4state) ∧
    spec_pack_host_returns [JSValue.boolean true] =
      GuestRet.valueOf (JSValue.boolean true) ∧
    GuestRet.arrayOf [JSValue.boolean true] ≠ GuestRet.valueOf (JSValue.boolean true) ∧
    lv8_js2lua_call C4state 0 C4fnZero [] = some (GuestRet.arrayOf [], C4state) ∧
    spec_pack_host_returns [] = GuestRet.valueOf JSValue.undefined ∧
    GuestRet.arrayOf ([] : List JSValue) ≠ GuestRet.valueOf JSValue.undefined :=
  ⟨rfl, rfl, by decide, rfl, rfl, by decide⟩

/-- Witness for the amended C4 at the concrete state, one return value. -/
theorem C4_return_packing_witness :
    lookupA C4state.jsheap 0 = some ⟨some 0, none, true, false, none, none, none⟩ ∧
    persistent_lookup_js C4state 0 ≠ LuaValue.nil ∧
    convertArgs_js2lua C4state [] = some ([], C4state) ∧
    C4fnOne (persistent_lookup_js C4state 0) [] = Except.ok [LuaValue.boolean true] ∧
    (lv8_js2lua_call C4state 0 C4fnOne [] =
      some (GuestRet.arrayOf (convertResults_lua2js C4state [LuaValue.boolean true]).1,
            (convertResults_lua2js C4state [LuaValue.boolean true]).2) ∧
     (convertResults_lua2js C4state [LuaValue.boolean true]).1.length =
       [LuaValue.boolean true].length) :=
  ⟨by decide, by decide, rfl, rfl,
    C4_return_packing_always_array C4state 0 0 none true false none none none
      C4fnOne [] [] C4state [LuaValue.boolean true]
      (by decide) (by decide) rfl rfl⟩

theorem lua2js_receiver_scopes (s : BridgeState) (cg : Nat) (recv : LuaValue) :
    scopesEq (lua2js_receiver s cg recv).2 s := by
  unfold lua2js_receiver
  split
  · exact ⟨rfl, rfl, rfl⟩
  · exact convert_lua2js_scopes s recv

/-- C6: a host-to-guest call enters its creation context exactly once and
exits it exactly once on both the success and the caught-exception path,
so the ambient scope depth after the call equals its value before; and
js_vm_eval exits the explicit context exactly when it entered it, leaving
the depth unchanged and enters and exits balanced, on every path. -/
theorem C6_scope_pairing (s : BridgeState) (p cg : Nat)
    (callee : JSValue → List JSValue → JSCallResult)
    (recv : LuaValue) (args : List LuaValue)
    (r : Except (LuaValue × BridgeState) (LuaValue × BridgeState))
    (hcall : lua_obj_lua2js_call s p cg callee recv args = some r)
    (t t1 : BridgeState) (ctxArg : JSValue) (dry : Bool)
    (heval : js_vm_eval t ctxArg dry = some t1) :
    ((stateOfOutcome r).scopeDepth = s.scopeDepth ∧
     (stateOfOutcome r).scopeEnters = s.scopeEnters + 1 ∧
     (stateOfOutcome r).scopeExits = s.scopeExits + 1) ∧
    (t1.scopeDepth = t.scopeDepth ∧
     t1.scopeEnters + t.scopeExits = t1.scopeExits + t.scopeEnters) := by
  constructor
  · unfold lua_obj_lua2js_call at hcall
    split at hcall
    · exact absurd hcall (by simp)
    · have hrecv := lua2js_receiver_scopes (enterScope s) cg recv
      have hargs := convertResults_scopes (lua2js_receiver (enterScope s) cg recv).2 args
      split at hcall
      · split at hcall
        · exact absurd hcall (by simp)
        · rename_i hdo
          cases hcall
          have h3 := do_exc_scopes _ _ _ hdo
          have hchain := scopesEq_trans (scopesEq_trans h3 hargs) hrecv
          obtain ⟨hd, he, hx⟩ := hchain
          simp only [enterScope] at hd he hx
          simp only [stateOfOutcome, exitScope]
          refine ⟨?_, ?_, ?_⟩ <;> omega
      · split at hcall
        · exact absurd hcall (by simp)
        · rename_i hconv
          cases hcall
          have h3 := convert_js2lua_scopes _ _ _ _ hconv
          have hchain := scopesEq_trans (scopesEq_trans h3 hargs) hrecv
          obtain ⟨hd, he, hx⟩ := hchain
          simp only [enterScope] at hd he hx
          simp only [stateOfOutcome, exitScope]
          refine ⟨?_, ?_, ?_⟩ <;> omega
  · unfold js_vm_eval at heval
    cases ctxArg <;> try { cases heval; exact ⟨rfl, by omega⟩ }
    case object jid =>
      repeat' split at heval
      all_goals cases heval
      all_goals constructor
      all_goals try simp [exitScope, enterScope]
      all_goals try omega

/-- A guest callee that returns undefined, for the C6 witness. -/
def C6calleeOk : JSValue → List JSValue → JSCallResult :=
  fun _ _ => JSCallResult.ok JSValue.undefined

/-- State for the C6 witness. -/
def C6state : BridgeState :=
  { wrappers := [(0, { type := ObjType.js, object := some 0, objectWeak := false,
                       context := none, contextWeak := false,
                       jscollected := false, resurrected := false })],
    jsheap := [], reftab := [], nextW := 1, nextJ := 1,
    scopeDepth := 0, scopeEnters := 0, scopeExits := 0 }

/-- Witness for C6 at a concrete call and eval. -/
theorem C6_scope_pairing_witness :
    let r0 : Except (LuaValue × BridgeState) (LuaValue × BridgeState) :=
      Except.ok (LuaValue.nil, { C6state with scopeEnters := 1, scopeExits := 1 })
    lua_obj_lua2js_call C6state 0 0 C6calleeOk LuaValue.nil [] = some r0 ∧
    js_vm_eval C6state JSValue.undefined false = some C6state ∧
    (((stateOfOutcome r0).scopeDepth = C6state.scopeDepth ∧
      (stateOfOutcome r0).scopeEnters = C6state.scopeEnters + 1 ∧
      (stateOfOutcome r0).scopeExits = C6state.scopeExits + 1) ∧
     (C6state.scopeDepth = C6state.scopeDepth ∧
      C6state.scopeEnters + C6state.scopeExits =
        C6state.scopeExits + C6state.scopeEnters)) :=
  ⟨rfl, rfl,
    C6_scope_pairing C6state 0 0 C6calleeOk LuaValue.nil [] _ rfl
      C6state C6state JSValue.undefined false rfl⟩

/-- C9 (amended): the hidden identity tag is the only duplicate-import
guard.  Importing an untagged guest object mints a fresh wrapper and
injects the tag; importing it again finds the tag and returns the very
same wrapper with no new allocation.  No reference-table or any other
fallback lookup exists on the untagged path. -/
theorem C9_identity_tag_load_bearing (s : BridgeState) (j : Nat)
    (f : Option Nat) (pr ig : Bool) (m st tb : Option String)
    (ho : lookupA s.jsheap j = some ⟨f, none, pr, ig, m, st, tb⟩) :
    ∃ u s1,
      lv8_wrap_js2lua s j = (LuaValue.udata u, s1) ∧
      lv8_wrap_js2lua s1 j = (LuaValue.udata u, s1) ∧
      (∃ o1, lookupA s1.jsheap j = some o1 ∧ o1.hiddenIdentity = some u) ∧
      (∃ wr, lookupA s1.wrappers u = some wr ∧ wr.object = some j) := by
  have h1 : lv8_wrap_js2lua s j = (LuaValue.udata s.nextW, { s with wrappers := setA s.wrappers s.nextW ⟨ObjType.js, some j, false, none, false, false, false⟩, jsheap := setA s.jsheap j ⟨f, some s.nextW, pr, ig, m, st, tb⟩, nextW := s.nextW + 1 }) := by
    simp [lv8_wrap_js2lua, ho]
  refine ⟨s.nextW, _, h1, ?_, ?_, ?_⟩
  · simp [lv8_wrap_js2lua, lookupA_setA]
  · exact ⟨⟨f, some s.nextW, pr, ig, m, st, tb⟩, by simp [lookupA_setA], rfl⟩
  · exact ⟨⟨ObjType.js, some j, false, none, false, false, false⟩,
      by simp [lookupA_setA], rfl⟩

/-- The initial state for the C9 counterexample: one plain guest object,
no tag, no wrappers. -/
def C9state : BridgeState :=
  { wrappers := [],
    jsheap := [(0, { internalField := none, hiddenIdentity := none,
                     isProxy := false, isContextGlobal := false,
                     message := none, stack := none, traceback := none })],
    reftab := [], nextW := 0, nextJ := 1,
    scopeDepth := 0, scopeEnters := 0, scopeExits := 0 }

/-- The wrapper minted for guest object 0 on each untagged import. -/
def C9wr : LV8Object :=
  { type := ObjType.js, object := some 0, objectWeak := false,
    context := none, contextWeak := false,
    jscollected := false, resurrected := false }

/-- State after one untagged import of object 0. -/
def C9s1 : BridgeState := { C9state with wrappers := [(0, C9wr)], nextW := 1 }

/-- State after two untagged imports of object 0. -/
def C9s2 : BridgeState :=
  { C9state with wrappers := [(1, C9wr), (0, C9wr)], nextW := 2 }

/-- C9 counterexample: with the identity tag mechanism absent (the
LV8_CACHE_PERSISTENT else path of the import in src/lv8.cpp), importing
the same guest object twice performs no fallback lookup and yields two
distinct wrappers with two anchors, so the reference count of bridge
entries for the object is two, not one: correctness does depend on the
tag. -/
theorem C9_no_tag_duplicates_counterexample :
    lv8cpp_import_js false C9state 0 = some (LuaValue.udata 0, C9s1) ∧
    lv8cpp_import_js false C9s1 0 = some (LuaValue.udata 1, C9s2) ∧
    LuaValue.udata 0 ≠ LuaValue.udata 1 ∧
    countAnchors C9s2 0 = 2 ∧
    countAnchors C9s1 0 = 1 :=
  ⟨rfl, rfl, by decide, rfl, rfl⟩

/-- Witness for the amended C9 at the concrete untagged object. -/
theorem C9_identity_tag_witness :
    lookupA C9state.jsheap 0 = some ⟨none, none, false, false, none, none, none⟩ ∧
    (∃ u s1,
      lv8_wrap_js2lua C9state 0 = (LuaValue.udata u, s1) ∧
      lv8_wrap_js2lua s1 0 = (LuaValue.udata u, s1) ∧
      (∃ o1, lookupA s1.jsheap 0 = some o1 ∧ o1.hiddenIdentity = some u) ∧
      (∃ wr, lookupA s1.wrappers u = some wr ∧ wr.object = some 0)) :=
  ⟨by decide,
    C9_identity_tag_load_bearing C9state 0 none false false none none none (by decide)⟩

/-- C5: cross-boundary exceptions are translated exactly once with the
message preserved.  A guest callee throwing an Error object makes the
host-to-guest call raise a host error value that is the proxy of the very
exception object (converting it back yields the original object, so it is
never double-wrapped) and the message is intact; a host error message
becomes one guest Error carrying exactly that message; and a host error
raised during a trapped sandbox property read becomes a pending
guest-visible exception with that message rather than being swallowed. -/
theorem C5_exception_translation
    (s : BridgeState) (p cg fo e : Nat)
    (pt : ObjType) (b1 : Bool) (pc : Option Nat) (b2 b3 b4 : Bool)
    (callee : JSValue → List JSValue → JSCallResult)
    (ef : Option Nat) (m : String) (stck tb0 : Option String)
    (hp : lookupA s.wrappers p = some ⟨pt, some fo, b1, pc, b2, b3, b4⟩)
    (hcallee : callee (JSValue.object cg) [] = JSCallResult.exc e)
    (he : lookupA s.jsheap e = some ⟨ef, none, false, false, some m, stck, tb0⟩)
    (sB : BridgeState) (msg : String)
    (u : BridgeState) (h c t : Nat) (pn : String)
    (hid2 : Option Nat) (icg2 : Bool) (m2 st2 tb2 : Option String)
    (o2 : Option Nat) (b5 : Bool) (c2 : Option Nat) (b6 : Bool)
    (hostGet : LuaValue → LuaValue → Except String LuaValue) (msgC : String)
    (hh : lookupA u.jsheap h = some ⟨some c, hid2, true, icg2, m2, st2, tb2⟩)
    (hcw : lookupA u.wrappers c = some ⟨ObjType.sb, o2, b5, c2, b6, false, false⟩)
    (hdata : rtGet u.reftab (LuaValue.lightud c) = LuaValue.table t)
    (hget : hostGet (LuaValue.table t) (LuaValue.str pn) = Except.error msgC) :
    (∃ lv sf,
      lua_obj_lua2js_call s p cg callee LuaValue.nil [] =
        some (Except.error (lv, sf)) ∧
      proxyTarget sf lv = some e ∧
      jsMessage sf e = some m ∧
      (convert_lua2js sf lv).1 = JSValue.object e) ∧
    (∃ e2 s2, exceptionFn sB (Except.error msg) = (some e2, [], s2) ∧
      jsMessage s2 e2 = some msg) ∧
    (∃ e3 u3, lv8_getprop_cb u h (JSValue.str pn) hostGet = some (some e3, none, u3) ∧
      jsMessage u3 e3 = some msgC) := by
  have hA : lua_obj_lua2js_call s p cg callee LuaValue.nil [] =
      some (Except.error (LuaValue.udata s.nextW, exitScope { wrappers := setA s.wrappers s.nextW ⟨ObjType.js, some e, false, none, false, false, false⟩, jsheap := setA (setA s.jsheap e ⟨ef, none, false, false, some m, stck, some (luaL_traceback (stck.getD "undefined"))⟩) e ⟨ef, some s.nextW, false, false, some m, stck, some (luaL_traceback (stck.getD "undefined"))⟩, reftab := s.reftab, nextW := s.nextW + 1, nextJ := s.nextJ, scopeDepth := s.scopeDepth + 1, scopeEnters := s.scopeEnters + 1, scopeExits := s.scopeExits })) := by
    simp [lua_obj_lua2js_call, lua2js_receiver, convertResults_lua2js, enterScope, hp,
      hcallee, do_exc, he, convert_lua2js, convert_js2lua, lv8_unwrap_js,
      lv8_is_js_context, lookupA_setA, lv8_wrap_js2lua]
  refine ⟨⟨LuaValue.udata s.nextW, _, hA, ?_, ?_, ?_⟩, ?_, ?_⟩
  · simp [proxyTarget, exitScope, lookupA_setA]
  · simp [jsMessage, exitScope, lookupA_setA]
  · simp [convert_lua2js, lv8_unwrap_lua, wrapperObject, exitScope, lookupA_setA]
  · exact ⟨sB.nextJ, _, rfl, by simp [jsMessage, lookupA_setA, mkJsError, exceptionFn]⟩
  · have hC : lv8_getprop_cb u h (JSValue.str pn) hostGet =
        some (some u.nextJ, none, { u with jsheap := setA u.jsheap u.nextJ (mkJsError msgC), nextJ := u.nextJ + 1 }) := by
      simp [lv8_getprop_cb, convert_js2lua, lv8_unwrap_js, hh, hcw,
        convert_js2lua_ctxTail, ctxFinish, hdata, hget, exceptionFn, lv8_is_js_context,
        Except.map]
    exact ⟨u.nextJ, _, hC, by simp [jsMessage, lookupA_setA, mkJsError]⟩

/-- A guest callee that always throws heap object 3, for the C5 witness. -/
def C5callee : JSValue → List JSValue → JSCallResult :=
  fun _ _ => JSCallResult.exc 3

/-- A host getter that always fails, for the C5 witness. -/
def C5hostGet : LuaValue → LuaValue → Except String LuaValue :=
  fun _ _ => Except.error "trap"

/-- State for the C5 witness, host-to-guest part: the callee wrapper 0
and the Error object 3 with message boom. -/
def C5stateA : BridgeState :=
  { wrappers := [(0, { type := ObjType.js, object := some 1, objectWeak := false,
                       context := none, contextWeak := false,
                       jscollected := false, resurrected := false })],
    jsheap := [(3, { internalField := none, hiddenIdentity := none,
                     isProxy := false, isContextGlobal := false,
                     message := some "boom", stack := none, traceback := none })],
    reftab := [], nextW := 4, nextJ := 5,
    scopeDepth := 0, scopeEnters := 0, scopeExits := 0 }

/-- State for the C5 witness, sandbox-trap part: sandbox global 4 with
wrapper 5 linked to host table 6. -/
def C5stateC : BridgeState :=
  { wrappers := [(5, { type := ObjType.sb, object := none, objectWeak := false,
                       context := none, contextWeak := false,
                       jscollected := false, resurrected := false })],
    jsheap := [(4, { internalField := some 5, hiddenIdentity := none,
                     isProxy := true, isContextGlobal := false,
                     message := none, stack := none, traceback := none })],
    reftab := [(LuaValue.lightud 5, LuaValue.table 6)],
    nextW := 6, nextJ := 7,
    scopeDepth := 0, scopeEnters := 0, scopeExits := 0 }

/-- Witness for C5 at the concrete states, with messages boom, hosterr
and trap. -/
theorem C5_exception_translation_witness :
    lookupA C5stateA.wrappers 0 =
      some ⟨ObjType.js, some 1, false, none, false, false, false⟩ ∧
    C5callee (JSValue.object 2) [] = JSCallResult.exc 3 ∧
    lookupA C5stateA.jsheap 3 = some ⟨none, none, false, false, some "boom", none, none⟩ ∧
    lookupA C5stateC.jsheap 4 = some ⟨some 5, none, true, false, none, none, none⟩ ∧
    lookupA C5stateC.wrappers 5 =
      some ⟨ObjType.sb, none, false, none, false, false, false⟩ ∧
    rtGet C5stateC.reftab (LuaValue.lightud 5) = LuaValue.table 6 ∧
    C5hostGet (LuaValue.table 6) (LuaValue.str "x") = Except.error "trap" ∧
    ((∃ lv sf,
        lua_obj_lua2js_call C5stateA 0 2 C5callee LuaValue.nil [] =
          some (Except.error (lv, sf)) ∧
        proxyTarget sf lv = some 3 ∧
        jsMessage sf 3 = some "boom" ∧
        (convert_lua2js sf lv).1 = JSValue.object 3) ∧
     (∃ e2 s2, exceptionFn C5stateA (Except.error "hosterr") = (some e2, [], s2) ∧
        jsMessage s2 e2 = some "hosterr") ∧
     (∃ e3 u3,
        lv8_getprop_cb C5stateC 4 (JSValue.str "x") C5hostGet =
          some (some e3, none, u3) ∧
        jsMessage u3 e3 = some "trap")) :=
  ⟨by decide, rfl, by decide, by decide, by decide, by decide, rfl,
    C5_exception_translation C5stateA 0 2 1 3 ObjType.js false none false false false
      C5callee none "boom" none none (by decide) rfl (by decide)
      C5stateA "hosterr"
      C5stateC 4 5 6 "x" none false none none none none false none false
      C5hostGet "trap" (by decide) (by decide) (by decide) rfl⟩

end LV8
